import Mathlib

/-!
Shallow embedding of the Face-Expression-Detector backend
(src/backend/api.py, src/backend/face_analyzer.py, src/backend/audio_analyzer.py).

Python float arithmetic is modelled by exact rational arithmetic (`ℚ`);
`time.time()` is modelled by an explicit `now : ℚ` parameter threaded into
each handler; the session dictionary `analyzer.sessions` is modelled as a
function `String → Option SessionState`.  The external detectors
(MediaPipe landmarks, DeepFace emotion classifier, Silero VAD) are out of
scope per the spec: their outputs are inputs of the embedded handlers
(`FaceDetection`, the raw emotion list, `BlobStats`).
-/

namespace FaceExpr

/-- Per-blob statistics returned by `AudioAnalyzer.process_audio_blob`
(audio_analyzer.py lines 57-62). -/
structure BlobStats where
  speech_ms : ℚ
  silence_ms : ℚ
  trailing_silence_ms : ℚ
  duration_ms : ℚ
deriving Repr, DecidableEq

/-- The `audio_stats` sub-dictionary of a session
(api.py lines 143-147): cumulative speech/silence counters plus the
current silence streak (`current_silence_ms`). -/
structure AudioStats where
  speech_ms : ℚ
  silence_ms : ℚ
  current_silence_ms : ℚ
deriving Repr, DecidableEq

/-- `{"speech_ms": 0, "silence_ms": 0, "current_silence_ms": 0}` -/
def AudioStats.init : AudioStats := ⟨0, 0, 0⟩

/-- One entry of `analyzer.sessions` (face_analyzer.py lines 15-17 and the
bootstrap blocks at api.py lines 141-151 / face_analyzer.py lines 112-117).
Emotions are an insertion-ordered association list mirroring a Python dict.
`audio_stats` is `Option` because a session created by the frame path has
no `audio_stats` key until the first audio call adds it
(api.py lines 156-161); every creation path populates the other keys. -/
structure SessionState where
  emotions : List (String × ℚ)
  audio_stats : Option AudioStats
  last_head_pos : ℚ × ℚ
  stability_history : List ℚ
  last_seen : ℚ
deriving Repr, DecidableEq

/-- `analyzer.sessions`: session id → state. -/
abbrev Store := String → Option SessionState

/-- Writing one entry of the session dictionary. -/
def Store.set (store : Store) (sid : String) (s : SessionState) : Store :=
  fun i => if i = sid then some s else store i

/-- `SPEECH_THRESHOLD_MS = 100` (api.py line 172). -/
def SPEECH_THRESHOLD_MS : ℚ := 100

/-- The discrete vocal status (spec §3 VocalStatus). -/
inductive VocalStatus where
  | fluent
  | thinking
  | stalling
  | freeze
deriving Repr, DecidableEq

/-- The status cascade of api.py lines 185-192: `streak > 10000 → freeze`,
`elif streak > 5000 → stalling`, `elif streak > 2000 → thinking`,
else `fluent`. -/
def vocalStatus (streak : ℚ) : VocalStatus :=
  if streak > 10000 then .freeze
  else if streak > 5000 then .stalling
  else if streak > 2000 then .thinking
  else .fluent

/-- Python `round` at scale 1 (round-half-to-even on the floor remainder),
used by `round(x, n)` below. -/
def roundHalfEven (x : ℚ) : ℤ :=
  let f := ⌊x⌋
  let r := x - f
  if r < 1 / 2 then f
  else if r > 1 / 2 then f + 1
  else if f % 2 = 0 then f else f + 1

/-- Python `round(x, 2)` (banker's rounding, modelled at the rational level). -/
def round2 (x : ℚ) : ℚ := roundHalfEven (x * 100) / 100

/-- Python `round(x, 1)`. -/
def round1 (x : ℚ) : ℚ := roundHalfEven (x * 10) / 10

/-- The bootstrap session written when an audio call arrives for an unseen
id (api.py lines 140-151): empty emotions, zeroed audio stats, centered
head position, stability window of ten 1.0 samples, fresh `last_seen`. -/
def audioBootstrap (now : ℚ) : SessionState :=
  { emotions := []
    audio_stats := some AudioStats.init
    last_head_pos := (1/2, 1/2)
    stability_history := List.replicate 10 1
    last_seen := now }

/-- The JSON payload built at api.py lines 198-204. -/
structure AudioPayload where
  success : Bool
  fluency : ℚ
  is_speaking : Bool
  vocal_status : VocalStatus
  silence_streak : ℚ
deriving Repr, DecidableEq

/-- `/analyze_audio` response: the success payload, or the
`{"success": False, "error": ...}` shape. -/
inductive AudioResponse where
  | ok (payload : AudioPayload)
  | err (msg : String)
deriving Repr, DecidableEq

/-- The session-update and payload construction of `analyze_audio` for a
successfully decoded blob (api.py lines 138-210), executed under
`analyzer.lock`.  Mirrors the source line by line: bootstrap an absent
session; refresh `last_seen`; ensure `audio_stats` exists (the
`stability_history` robustness check at lines 164-166 is a no-op here
because every creation path of the model populates that field, as every
creation path of the source does); update the silence streak by the
threshold rule; add the blob totals; derive status, fluency and payload. -/
def analyze_audio_core (store : Store) (sid : String) (st : BlobStats)
    (now : ℚ) : AudioPayload × Store :=
  let s0 := (store sid).getD (audioBootstrap now)
  let s1 := { s0 with last_seen := now }
  let a := s1.audio_stats.getD AudioStats.init
  let newStreak :=
    if st.speech_ms > SPEECH_THRESHOLD_MS then st.trailing_silence_ms
    else a.current_silence_ms + st.silence_ms
  let a1 : AudioStats :=
    { speech_ms := a.speech_ms + st.speech_ms
      silence_ms := a.silence_ms + st.silence_ms
      current_silence_ms := newStreak }
  let s2 := { s1 with audio_stats := some a1 }
  let status := vocalStatus newStreak
  let total := a1.speech_ms + a1.silence_ms
  let fluency := if total > 0 then a1.speech_ms / total * 100 else 100
  let payload : AudioPayload :=
    { success := true
      fluency := round2 fluency
      is_speaking := decide (st.speech_ms > 0)
      vocal_status := status
      silence_streak := round1 (newStreak / 1000) }
  (payload, store.set sid s2)

/-- The `/analyze_audio` handler given the VAD outcome: `process_audio_blob`
returning `None` (decode failure) yields the error response and leaves the
store untouched (api.py line 212); otherwise the core update runs. -/
def analyze_audio (store : Store) (sid : String) (stats : Option BlobStats)
    (now : ℚ) : AudioResponse × Store :=
  match stats with
  | none => (.err "Could not analyze audio", store)
  | some st =>
      let r := analyze_audio_core store sid st now
      (.ok r.1, r.2)

/-- The session's current silence streak as the audio handler reads it: 0
when the session or its `audio_stats` key is absent (both are bootstrapped
to 0 before the streak update). -/
def sessionStreak (store : Store) (sid : String) : ℚ :=
  match store sid with
  | none => 0
  | some s =>
      match s.audio_stats with
      | none => 0
      | some a => a.current_silence_ms

/-! ### Frame path (face_analyzer.py) -/

/-- One MediaPipe landmark, normalized coordinates. -/
structure Landmark where
  x : ℚ
  y : ℚ
deriving Repr, DecidableEq

/-- The landmarks `analyze_frame_sync` reads when a face is detected:
irises 468/473, eye corners 33/133 and 362/263, nose tip 1. -/
structure FaceDetection where
  leftIris : Landmark
  leftCornerL : Landmark
  leftCornerR : Landmark
  rightIris : Landmark
  rightCornerL : Landmark
  rightCornerR : Landmark
  nose : Landmark
deriving Repr, DecidableEq

/-- `get_gaze_ratio` (face_analyzer.py lines 85-94) on x-coordinates:
`eye_width = abs(r_c.x - l_c.x)`; a zero-width eye returns 0.5, otherwise
`(iris.x - l_c.x) / eye_width`. -/
def get_gaze_ratio (iris lc rc : ℚ) : ℚ :=
  let eye_width := |rc - lc|
  if eye_width = 0 then 1/2 else (iris - lc) / eye_width

/-- `left_ratio` at face_analyzer.py line 96. -/
def leftRatio (f : FaceDetection) : ℚ :=
  get_gaze_ratio f.leftIris.x f.leftCornerL.x f.leftCornerR.x

/-- `right_ratio` at face_analyzer.py line 97. -/
def rightRatio (f : FaceDetection) : ℚ :=
  get_gaze_ratio f.rightIris.x f.rightCornerL.x f.rightCornerR.x

/-- `avg_ratio = (left_ratio + right_ratio) / 2` (line 98). -/
def avgRatio (f : FaceDetection) : ℚ := (leftRatio f + rightRatio f) / 2

/-- `results_data["gaze_score"] = max(0, 1 - gaze_dist / 0.15)` with
`gaze_dist = abs(avg_ratio - 0.5)` (face_analyzer.py lines 101-103). -/
def gazeScoreOf (f : FaceDetection) : ℚ :=
  max 0 (1 - |avgRatio f - 1/2| / (15/100))

/-- Python dict membership probe `k in d` / value access, on the
insertion-ordered association-list model of a dict. -/
def alistLookup : List (String × ℚ) → String → Option ℚ
  | [], _ => none
  | (k1, v) :: t, k => if k1 = k then some v else alistLookup t k

/-- Python `dict.get(k, d)`. -/
def alistGet (l : List (String × ℚ)) (k : String) (d : ℚ) : ℚ :=
  (alistLookup l k).getD d

/-- Python `d[k] = v`: overwrite in place if present, else append. -/
def alistSet : List (String × ℚ) → String → ℚ → List (String × ℚ)
  | [], k, v => [(k, v)]
  | (k1, v1) :: t, k, v =>
      if k1 = k then (k, v) :: t else (k1, v1) :: alistSet t k v

/-- `alpha = 0.2` (face_analyzer.py line 169). -/
def alpha : ℚ := 1/5

/-- One iteration of the EMA loop body (face_analyzer.py lines 170-172):
`smoothed[emotion] = score * alpha + smoothed.get(emotion, 0) * (1 - alpha)`. -/
def emaStep (acc : List (String × ℚ)) (p : String × ℚ) : List (String × ℚ) :=
  alistSet acc p.1 (p.2 * alpha + alistGet acc p.1 0 * (1 - alpha))

/-- The in-place EMA loop of face_analyzer.py lines 169-172, iterating the
raw classifier dict in insertion order over the mutable smoothed dict. -/
def emaUpdate (smoothed raw : List (String × ℚ)) : List (String × ℚ) :=
  raw.foldl emaStep smoothed

/-- The emotion-smoothing block (face_analyzer.py lines 165-172): an empty
(falsy) smoothed dict is first seeded with a copy of the raw dict, then
the EMA loop runs over it. -/
def emotionStep (old raw : List (String × ℚ)) : List (String × ℚ) :=
  emaUpdate (if old.isEmpty then raw else old) raw

/-- `max(smoothed, key=smoothed.get)` (line 175): first key of maximal
value in iteration order; `none` on an empty dict (Python would raise). -/
def argmaxAlist : List (String × ℚ) → Option String
  | [] => none
  | (k, v) :: t =>
      some ((t.foldl (fun best p => if p.2 > best.2 then p else best) (k, v)).1)

/-- The detector outcomes feeding one `analyze_frame_sync` call:
`mp_results.multi_face_landmarks` (`none` = no face) and the DeepFace
emotion dict (`none` = classifier error or empty result list,
face_analyzer.py lines 154-158). -/
structure FrameInput where
  face : Option FaceDetection
  emotionResult : Option (List (String × ℚ))
deriving Repr, DecidableEq

/-- `results_data` as returned by `analyze_frame_sync` for a detected face
(face_analyzer.py lines 65-71 and subsequent assignments). -/
structure FrameResult where
  detected : Bool
  emotions : List (String × ℚ)
  dominant_emotion : Option String
  gaze_score : ℚ
  stability_score : ℚ
deriving Repr, DecidableEq

/-- The session bootstrapped by the frame path for an unseen id
(face_analyzer.py lines 112-117): no `audio_stats` key. -/
def frameBootstrap (pos : ℚ × ℚ) (now : ℚ) : SessionState :=
  { emotions := []
    audio_stats := none
    last_head_pos := pos
    stability_history := List.replicate 10 1
    last_seen := now }

/-- `FaceAnalyzer.analyze_frame_sync` (face_analyzer.py lines 62-181).
`sqrtQ` abstracts `np.sqrt` applied to the squared head displacement
(line 130): its exact value is irrational, so the embedding is
parametric in it; no claim depends on the value it returns.  With no
detected face the function returns `[]` and never touches the session
(the whole session block sits inside `if mp_results.multi_face_landmarks`).
Otherwise: bootstrap or fetch the session, refresh `last_seen`, push the
instantaneous stability sample `max(0, 1 - movement/0.03)` into the
window, pop the oldest sample when the length exceeds 15, report the mean
of the window, store the new head position; then, if the emotion
classifier produced a dict, run the EMA step and report its result. -/
def analyze_frame_sync (sqrtQ : ℚ → ℚ) (store : Store) (sid : String)
    (input : FrameInput) (now : ℚ) : List FrameResult × Store :=
  match input.face with
  | none => ([], store)
  | some f =>
      let gaze := gazeScoreOf f
      let curr := (f.nose.x, f.nose.y)
      let s0 := (store sid).getD (frameBootstrap curr now)
      let s1 := { s0 with last_seen := now }
      let prev := s1.last_head_pos
      let movement := sqrtQ ((curr.1 - prev.1)^2 + (curr.2 - prev.2)^2)
      let currStab := max 0 (1 - movement / (3/100))
      let hist1 := s1.stability_history ++ [currStab]
      let hist2 := if hist1.length > 15 then hist1.tail else hist1
      let stabScore := hist2.sum / (hist2.length : ℚ)
      let s2 := { s1 with stability_history := hist2, last_head_pos := curr }
      match input.emotionResult with
      | none =>
          ([{ detected := true
              emotions := []
              dominant_emotion := none
              gaze_score := gaze
              stability_score := stabScore }], store.set sid s2)
      | some raw =>
          let newEmotions := emotionStep s2.emotions raw
          let s3 := { s2 with emotions := newEmotions }
          ([{ detected := true
              emotions := newEmotions
              dominant_emotion := argmaxAlist newEmotions
              gaze_score := gaze
              stability_score := stabScore }], store.set sid s3)

/-! ### Session clear (api.py lines 63-73) -/

/-- `/end_session`: delete the id if present and report `success=True`,
otherwise report `success=False`.  Both branches return normally — the
handler contains no raising path. -/
def end_session (store : Store) (sid : String) : Bool × Store :=
  match store sid with
  | some _ => (true, fun i => if i = sid then none else store i)
  | none => (false, store)

/-! ### Relay hub (socket.io handlers, api.py lines 229-270) -/

/-- Socket.io room registry: room id → member sids. -/
abbrev Rooms := String → List String

/-- `sio.emit(..., room=room, skip_sid=skip)`: delivered to every current
member of the room except `skip` when given. -/
def sioEmit (rooms : Rooms) (room : String) (skip : Option String) :
    List String :=
  match skip with
  | none => rooms room
  | some s => (rooms room).filter (fun m => m ≠ s)

/-- `terminate_room` handler (api.py lines 266-270): emits
`room_terminated` to the room with no `skip_sid`, and performs no
`leave_room`/`close_room` — membership is returned unchanged.  Result:
(recipient list of the termination notice, room registry afterwards). -/
def terminate_room (rooms : Rooms) (sender : String) (room : String) :
    List String × Rooms :=
  (sioEmit rooms room none, rooms)

/-! ### Derived observations used by the theorems -/

/-- Boolean form of the stability-window capacity invariant for one store
entry: an absent session satisfies it, a present one iff its window holds
at most 15 samples. -/
def lenOk (o : Option SessionState) : Bool :=
  match o with
  | none => true
  | some s => decide (s.stability_history.length ≤ 15)

/-- The cumulative audio counters of a session as the handler reads them
(zeros when the session or its `audio_stats` key is absent). -/
def sessionAudio (store : Store) (sid : String) : AudioStats :=
  ((store sid).bind (fun s => s.audio_stats)).getD AudioStats.init

/-! ### Shared lemmas -/

/-- Evaluation rule for `round2` when the scaled value falls strictly
below the rounding midpoint. -/
theorem round2_eq_of_floor (x : ℚ) (f : ℤ) (h1 : (f : ℚ) ≤ x * 100)
    (h2 : x * 100 < (f : ℚ) + 1) (h3 : x * 100 - (f : ℚ) < 1/2) :
    round2 x = (f : ℚ) / 100 := by
  have hf : ⌊x * 100⌋ = f := Int.floor_eq_iff.mpr ⟨h1, by linarith⟩
  simp only [round2, roundHalfEven, hf]
  rw [if_pos h3]

/-- `round(100, 2) = 100`. -/
theorem round2_hundred : round2 100 = 100 := by
  have h := round2_eq_of_floor 100 10000 (by norm_num) (by norm_num)
    (by norm_num)
  norm_num at h
  exact h

/-- `round(100/3, 2) = 33.33`. -/
theorem round2_third : round2 (100/3) = 3333/100 := by
  have h := round2_eq_of_floor (100/3) 3333 (by norm_num) (by norm_num)
    (by norm_num)
  norm_num at h
  exact h

/-- How one audio update transforms the stored silence streak, shared by
several theorems below. -/
theorem streak_after_core (store : Store) (sid : String) (st : BlobStats)
    (now : ℚ) :
    sessionStreak (analyze_audio_core store sid st now).2 sid =
      if st.speech_ms > 100 then st.trailing_silence_ms
      else sessionStreak store sid + st.silence_ms := by
  unfold analyze_audio_core sessionStreak Store.set SPEECH_THRESHOLD_MS
  cases hs : store sid with
  | none => simp [audioBootstrap, AudioStats.init]
  | some s =>
      cases ha : s.audio_stats with
      | none => simp [ha, AudioStats.init]
      | some a => simp [ha]

/-- Looking up the key just written. -/
theorem alistLookup_alistSet_self (l : List (String × ℚ)) (k : String)
    (v : ℚ) : alistLookup (alistSet l k v) k = some v := by
  induction l with
  | nil => simp [alistSet, alistLookup]
  | cons p t ih =>
      by_cases h : p.1 = k
      · simp [alistSet, h, alistLookup]
      · simp [alistSet, h, alistLookup, ih]

/-- Writing one key leaves every other key's binding unchanged. -/
theorem alistLookup_alistSet_ne (l : List (String × ℚ)) (k1 : String)
    (v : ℚ) (k : String) (h : k1 ≠ k) :
    alistLookup (alistSet l k1 v) k = alistLookup l k := by
  induction l with
  | nil => simp [alistSet, alistLookup, h]
  | cons p t ih =>
      by_cases hp : p.1 = k1
      · simp [alistSet, hp, alistLookup, h]
      · simp [alistSet, hp, alistLookup, ih]

/-- Overwriting a binding with the value it already holds is a no-op. -/
theorem alistSet_eq_of_lookup (l : List (String × ℚ)) (k : String) (v : ℚ)
    (h : alistLookup l k = some v) : alistSet l k v = l := by
  induction l with
  | nil => simp [alistLookup] at h
  | cons p t ih =>
      by_cases hp : p.1 = k
      · obtain ⟨k1, v1⟩ := p
        simp only at hp
        subst hp
        simp [alistLookup] at h
        subst h
        simp [alistSet]
      · simp only [alistLookup, hp, if_neg hp] at h
        simp [alistSet, hp, ih h]

/-- In a dict with pairwise-distinct keys, every stored pair is found by
lookup. -/
theorem alistLookup_of_nodup (raw : List (String × ℚ))
    (hnd : (raw.map Prod.fst).Nodup) :
    ∀ q ∈ raw, alistLookup raw q.1 = some q.2 := by
  induction raw with
  | nil => intro q hq; simp at hq
  | cons p t ih =>
      simp only [List.map_cons, List.nodup_cons] at hnd
      intro q hq
      rcases List.mem_cons.mp hq with hq | hq
      · subst hq
        simp [alistLookup]
      · have hne : p.1 ≠ q.1 := by
          intro hcontra
          exact hnd.1 (hcontra ▸ List.mem_map_of_mem Prod.fst hq)
        simp only [alistLookup, if_neg hne]
        exact ih hnd.2 q hq

/-- EMA iterations over labels not containing `k` never change `k`'s
binding. -/
theorem emaUpdate_lookup_notmem (t : List (String × ℚ))
    (acc : List (String × ℚ)) (k : String) (h : k ∉ t.map Prod.fst) :
    alistLookup (t.foldl emaStep acc) k = alistLookup acc k := by
  induction t generalizing acc with
  | nil => rfl
  | cons p t ih =>
      simp only [List.map_cons, List.mem_cons, not_or] at h
      simp only [List.foldl_cons]
      rw [ih (emaStep acc p) h.2]
      exact alistLookup_alistSet_ne acc p.1 _ k (Ne.symm h.1)

/-- The per-label EMA equation: if the raw dict (distinct keys) holds `r`
at label `k` and the accumulator holds `p` there, then after the EMA loop
label `k` holds `r * 0.2 + p * 0.8`. -/
theorem emaUpdate_lookup (raw : List (String × ℚ)) (acc : List (String × ℚ))
    (k : String) (r p : ℚ) (hnd : (raw.map Prod.fst).Nodup)
    (hr : alistLookup raw k = some r) (hp : alistLookup acc k = some p) :
    alistLookup (emaUpdate acc raw) k = some (r * (1/5) + p * (4/5)) := by
  induction raw generalizing acc with
  | nil => simp [alistLookup] at hr
  | cons q t ih =>
      simp only [List.map_cons, List.nodup_cons] at hnd
      by_cases hk : q.1 = k
      · have hrq : q.2 = r := by
          simp only [alistLookup, if_pos hk, Option.some.injEq] at hr
          exact hr
        have hnotmem : k ∉ t.map Prod.fst := hk ▸ hnd.1
        simp only [emaUpdate, List.foldl_cons]
        rw [emaUpdate_lookup_notmem t _ k hnotmem]
        unfold emaStep
        rw [hk, alistLookup_alistSet_self]
        have hget : alistGet acc k 0 = p := by simp [alistGet, hp]
        rw [hget, hrq]
        norm_num [alpha]
      · simp only [alistLookup, if_neg hk] at hr
        have hstep : alistLookup (emaStep acc q) k = some p := by
          unfold emaStep
          rw [alistLookup_alistSet_ne acc q.1 _ k hk]
          exact hp
        simpa [emaUpdate] using ih (emaStep acc q) hnd.2 hr hstep

/-- Running the EMA loop over an accumulator that already stores exactly
the raw values is the identity (each label is blended with itself). -/
theorem emaUpdate_self (raw : List (String × ℚ)) (acc : List (String × ℚ))
    (h : ∀ q ∈ raw, alistLookup acc q.1 = some q.2) :
    raw.foldl emaStep acc = acc := by
  induction raw generalizing acc with
  | nil => rfl
  | cons q t ih =>
      have hq := h q (List.mem_cons_self q t)
      have hval : q.2 * alpha + alistGet acc q.1 0 * (1 - alpha) = q.2 := by
        simp only [alistGet, hq, Option.getD_some]
        norm_num [alpha]
        ring
      simp only [List.foldl_cons]
      unfold emaStep
      rw [hval, alistSet_eq_of_lookup acc q.1 q.2 hq]
      exact ih acc (fun q1 hq1 => h q1 (List.mem_cons_of_mem q hq1))

/-! ### Claims -/

/-- Claim C1: on every audio analyze call, a blob with `speech_ms > 100`
resets the stored silence streak to exactly this blob's
`trailing_silence_ms`, regardless of the streak accumulated before;
otherwise the blob's `silence_ms` is added to the existing streak. -/
theorem streak_reset_or_accumulate (store : Store) (sid : String)
    (st : BlobStats) (now : ℚ) :
    sessionStreak (analyze_audio store sid (some st) now).2 sid =
      if st.speech_ms > 100 then st.trailing_silence_ms
      else sessionStreak store sid + st.silence_ms :=
  streak_after_core store sid st now

/-- Claim C2: the derived vocal status is exactly freeze above 10000 ms,
stalling on (5000, 10000], thinking on (2000, 5000] and fluent at or
below 2000 ms; in particular 2000 maps to fluent, 2001 to thinking, 5000
to thinking, 5001 to stalling, 10000 to stalling and 10001 to freeze. -/
theorem vocal_status_thresholds :
    (∀ x : ℚ,
      (vocalStatus x = VocalStatus.freeze ↔ 10000 < x)
      ∧ (vocalStatus x = VocalStatus.stalling ↔ 5000 < x ∧ x ≤ 10000)
      ∧ (vocalStatus x = VocalStatus.thinking ↔ 2000 < x ∧ x ≤ 5000)
      ∧ (vocalStatus x = VocalStatus.fluent ↔ x ≤ 2000))
    ∧ vocalStatus 2000 = VocalStatus.fluent
    ∧ vocalStatus 2001 = VocalStatus.thinking
    ∧ vocalStatus 5000 = VocalStatus.thinking
    ∧ vocalStatus 5001 = VocalStatus.stalling
    ∧ vocalStatus 10000 = VocalStatus.stalling
    ∧ vocalStatus 10001 = VocalStatus.freeze := by
  refine ⟨fun x => ?_, by decide, by decide, by decide, by decide,
    by decide, by decide⟩
  unfold vocalStatus
  split_ifs with h1 h2 h3 <;>
    refine ⟨?_, ?_, ?_, ?_⟩ <;>
    simp_all <;>
    first
      | linarith
      | (intro h; linarith)

/-- Claim C8: clearing an id absent from the session store reports
`success = false` on the first and on every repeated call (both branches
of the handler return normally, so no call raises), and clearing an
existing id removes it, so the immediately repeated clear also reports
`success = false`. -/
theorem end_session_idempotent (store : Store) (sid : String) :
    (store sid = none → (end_session store sid).1 = false)
    ∧ (end_session (end_session store sid).2 sid).1 = false
    ∧ (store sid ≠ none → (end_session store sid).2 sid = none) := by
  refine ⟨fun h => ?_, ?_, fun h => ?_⟩
  · simp [end_session, h]
  · cases hs : store sid with
    | none => simp [end_session, hs]
    | some s => simp [end_session, hs]
  · cases hs : store sid with
    | none => exact absurd hs h
    | some s => simp [end_session, hs]

/-- Witness for `end_session_idempotent` at concrete stores. -/
theorem end_session_idempotent_witness :
    (end_session (fun _ => none) "a").1 = false
    ∧ (end_session (end_session (fun _ => none) "a").2 "a").1 = false
    ∧ (end_session
        (fun i => if i = "a" then some (audioBootstrap 0) else none) "a").2 "a"
        = none :=
  ⟨(end_session_idempotent (fun _ => none) "a").1 rfl,
   (end_session_idempotent (fun _ => none) "a").2.1,
   (end_session_idempotent
      (fun i => if i = "a" then some (audioBootstrap 0) else none) "a").2.2
      (by simp)⟩

/-- Claim C9: the terminate-room handler broadcasts the termination notice
to every current member of the room (the sender included when it is a
member) and leaves the room registry entirely unchanged — no member is
removed and no room is deleted. -/
theorem terminate_room_preserves_membership (rooms : Rooms)
    (sender room : String) :
    (terminate_room rooms sender room).1 = rooms room
    ∧ (terminate_room rooms sender room).2 = rooms
    ∧ (sender ∈ rooms room → sender ∈ (terminate_room rooms sender room).1) :=
  ⟨rfl, rfl, fun h => h⟩

/-- Witness for `terminate_room_preserves_membership` at a concrete
two-member room containing the sender. -/
theorem terminate_room_preserves_membership_witness :
    (terminate_room (fun r => if r = "r" then ["a", "b"] else []) "a" "r").1
      = ["a", "b"]
    ∧ (terminate_room (fun r => if r = "r" then ["a", "b"] else []) "a" "r").2
      = (fun r => if r = "r" then ["a", "b"] else [])
    ∧ "a" ∈ (terminate_room (fun r => if r = "r" then ["a", "b"] else [])
        "a" "r").1 := by
  have h := terminate_room_preserves_membership
    (fun r => if r = "r" then ["a", "b"] else []) "a" "r"
  exact ⟨by rw [h.1]; simp, h.2.1, h.2.2 (by simp)⟩

/-- Claim C10: the audio response reports `is_speaking` exactly when the
blob's `speech_ms` is strictly positive; hence a blob with
`0 < speech_ms ≤ 100` is reported as speaking while the same call still
treats it as mostly silent and adds its `silence_ms` to the streak. -/
theorem is_speaking_positive_speech (store : Store) (sid : String)
    (st : BlobStats) (now : ℚ) :
    ((analyze_audio store sid (some st) now).1
      = AudioResponse.ok (analyze_audio_core store sid st now).1)
    ∧ ((analyze_audio_core store sid st now).1.is_speaking = true
        ↔ 0 < st.speech_ms)
    ∧ (0 < st.speech_ms → st.speech_ms ≤ 100 →
        (analyze_audio_core store sid st now).1.is_speaking = true
        ∧ sessionStreak (analyze_audio_core store sid st now).2 sid
            = sessionStreak store sid + st.silence_ms) := by
  refine ⟨rfl, ?_, fun h1 h2 => ⟨?_, ?_⟩⟩
  · simp [analyze_audio_core]
  · simp [analyze_audio_core]
    exact h1
  · rw [streak_after_core store sid st now, if_neg (not_lt.mpr h2)]

/-- Witness for `is_speaking_positive_speech` at a short noisy blob. -/
theorem is_speaking_positive_speech_witness :
    (analyze_audio_core (fun _ => none) "s" ⟨50, 450, 0, 500⟩ 0).1.is_speaking
      = true
    ∧ sessionStreak (analyze_audio_core (fun _ => none) "s"
        ⟨50, 450, 0, 500⟩ 0).2 "s"
      = sessionStreak (fun _ => none) "s" + 450 :=
  (is_speaking_positive_speech (fun _ => none) "s" ⟨50, 450, 0, 500⟩ 0).2.2
    (by norm_num) (by norm_num)

/-- Claim C6, counterexample: a frame analyze call in which no face is
detected never touches the session, so it does not refresh `last_seen`:
with a stored session whose `last_seen` is 0, a no-face call at time 5
leaves `last_seen` at 0, not 5. -/
theorem last_seen_stale_on_no_face :
    ((analyze_frame_sync (fun _ => 0)
        (fun i => if i = "s" then some (audioBootstrap 0) else none) "s"
        ⟨none, none⟩ 5).2 "s").map (fun s => s.last_seen) ≠ some 5 := by
  decide

/-- Claim C6 as amended: every audio analyze call on a decodable blob and
every frame analyze call in which a face is detected set the session's
`last_seen` to the call time; a frame call with no detected face, like an
audio call whose blob fails to decode, leaves the session store
untouched. -/
theorem last_seen_on_success :
    (∀ (store : Store) (sid : String) (st : BlobStats) (now : ℚ),
      ((analyze_audio_core store sid st now).2 sid).map (fun s => s.last_seen)
        = some now)
    ∧ (∀ (sqrtQ : ℚ → ℚ) (store : Store) (sid : String) (input : FrameInput)
        (f : FaceDetection) (now : ℚ), input.face = some f →
      ((analyze_frame_sync sqrtQ store sid input now).2 sid).map
          (fun s => s.last_seen) = some now)
    ∧ (∀ (sqrtQ : ℚ → ℚ) (store : Store) (sid : String) (input : FrameInput)
        (now : ℚ), input.face = none →
      (analyze_frame_sync sqrtQ store sid input now).2 = store)
    ∧ (∀ (store : Store) (sid : String) (now : ℚ),
      (analyze_audio store sid none now).2 = store) := by
  refine ⟨fun store sid st now => ?_, fun sqrtQ store sid input f now hf => ?_,
    fun sqrtQ store sid input now hf => ?_, fun store sid now => rfl⟩
  · simp [analyze_audio_core, Store.set]
  · cases he : input.emotionResult <;>
      simp [analyze_frame_sync, hf, he, Store.set]
  · simp [analyze_frame_sync, hf]

/-- Witness for `last_seen_on_success` at concrete calls. -/
theorem last_seen_on_success_witness :
    ((analyze_audio_core (fun _ => none) "s" ⟨0, 0, 0, 0⟩ 7).2 "s").map
        (fun s => s.last_seen) = some 7
    ∧ ((analyze_frame_sync (fun _ => 0) (fun _ => none) "s"
        ⟨some ⟨⟨1/2, 0⟩, ⟨0, 0⟩, ⟨1, 0⟩, ⟨1/2, 0⟩, ⟨0, 0⟩, ⟨1, 0⟩, ⟨1/2, 1/2⟩⟩,
          none⟩ 7).2 "s").map (fun s => s.last_seen) = some 7 :=
  ⟨last_seen_on_success.1 (fun _ => none) "s" ⟨0, 0, 0, 0⟩ 7,
   last_seen_on_success.2.1 (fun _ => 0) (fun _ => none) "s"
     ⟨some ⟨⟨1/2, 0⟩, ⟨0, 0⟩, ⟨1, 0⟩, ⟨1/2, 0⟩, ⟨0, 0⟩, ⟨1, 0⟩, ⟨1/2, 1/2⟩⟩,
       none⟩ _ 7 rfl⟩

/-- Claim C7, counterexample: the response's `fluency` field is rounded to
two decimals, so on cumulative totals speech 1000 ms / silence 2000 ms it
reports 33.33, not the exact ratio 100/3. -/
theorem fluency_reported_rounded_cex :
    (analyze_audio_core (fun _ => none) "s" ⟨1000, 2000, 0, 3000⟩ 0).1.fluency
      ≠ 1000 / (1000 + 2000) * 100 := by
  have h : (analyze_audio_core (fun _ => none) "s"
      ⟨1000, 2000, 0, 3000⟩ 0).1.fluency = round2 (100/3) := by
    norm_num [analyze_audio_core, audioBootstrap, AudioStats.init,
      SPEECH_THRESHOLD_MS, Store.set]
  rw [h, round2_third]
  norm_num

/-- Claim C7 as amended: the reported fluency equals
`speech_ms / (speech_ms + silence_ms) * 100` over the session's cumulative
totals, rounded to two decimal places, and equals exactly 100 whenever the
cumulative total is 0 (no data is not an error). -/
theorem fluency_reported (store : Store) (sid : String) (st : BlobStats)
    (now : ℚ) :
    ((analyze_audio_core store sid st now).1.fluency =
      round2 (if 0 < (sessionAudio (analyze_audio_core store sid st now).2
            sid).speech_ms
          + (sessionAudio (analyze_audio_core store sid st now).2 sid).silence_ms
        then (sessionAudio (analyze_audio_core store sid st now).2 sid).speech_ms
          / ((sessionAudio (analyze_audio_core store sid st now).2 sid).speech_ms
            + (sessionAudio (analyze_audio_core store sid st now).2
                sid).silence_ms) * 100
        else 100))
    ∧ ((sessionAudio (analyze_audio_core store sid st now).2 sid).speech_ms
        + (sessionAudio (analyze_audio_core store sid st now).2 sid).silence_ms
          = 0 →
      (analyze_audio_core store sid st now).1.fluency = 100) := by
  constructor
  · simp [analyze_audio_core, sessionAudio, Store.set]
  · intro h0
    simp [analyze_audio_core, sessionAudio, Store.set] at h0 ⊢
    rw [h0]
    norm_num [round2_hundred]

/-- Claim C3: emotion smoothing is a per-label EMA with `alpha = 0.2` —
when a prior smoothed value `p` exists for a label carried by the raw
output, the next smoothed value is exactly `0.2 * raw + 0.8 * p`; on the
first-ever observation (empty smoothed dict) the smoothed vector equals
the raw vector exactly, with no blending against a default prior of 0;
and a frame analyze call with a detected face and a classifier result
stores exactly this smoothing step's output in the session. -/
theorem emotion_ema_smoothing :
    (∀ (old raw : List (String × ℚ)) (k : String) (r p : ℚ),
      (raw.map Prod.fst).Nodup → old ≠ [] →
      alistLookup old k = some p → alistLookup raw k = some r →
      alistLookup (emotionStep old raw) k = some (r * (1/5) + p * (4/5)))
    ∧ (∀ raw : List (String × ℚ), (raw.map Prod.fst).Nodup →
        emotionStep [] raw = raw)
    ∧ (∀ (sqrtQ : ℚ → ℚ) (store : Store) (sid : String) (f : FaceDetection)
        (raw : List (String × ℚ)) (now : ℚ),
      ((analyze_frame_sync sqrtQ store sid ⟨some f, some raw⟩ now).2 sid).map
          (fun s => s.emotions)
        = some (emotionStep
            (((store sid).getD
              (frameBootstrap (f.nose.x, f.nose.y) now)).emotions) raw)) := by
  refine ⟨fun old raw k r p hnd hne hp hr => ?_, fun raw hnd => ?_,
    fun sqrtQ store sid f raw now => ?_⟩
  · cases old with
    | nil => exact absurd rfl hne
    | cons q t =>
        simpa [emotionStep] using
          emaUpdate_lookup raw (q :: t) k r p hnd hr hp
  · simpa [emotionStep, emaUpdate] using
      emaUpdate_self raw raw (alistLookup_of_nodup raw hnd)
  · cases hs : store sid <;>
      simp [analyze_frame_sync, Store.set, hs, frameBootstrap]

/-- Witness for `emotion_ema_smoothing`: prior 50 with raw 80 yields
exactly 56, and the first observation stores the raw dict unchanged. -/
theorem emotion_ema_smoothing_witness :
    alistLookup (emotionStep [("happy", 50)] [("happy", 80)]) "happy"
      = some 56
    ∧ emotionStep [] [("happy", 80), ("sad", 30)]
      = [("happy", 80), ("sad", 30)] := by
  constructor
  · have h := emotion_ema_smoothing.1 [("happy", 50)] [("happy", 80)]
      "happy" 80 50 (by simp) (by simp) (by simp [alistLookup])
      (by simp [alistLookup])
    norm_num at h
    exact h
  · exact emotion_ema_smoothing.2.1 [("happy", 80), ("sad", 30)] (by decide)

/-- Claim C4: the gaze score equals `clamp(1 - |avg - 0.5| / 0.15, 0, 1)`
where `avg` is the mean of the two per-eye iris ratios; a zero-width eye
yields ratio 0.5; the score is exactly 1 when both ratios are 0.5, is
monotonically decreasing in the distance of the average ratio from 0.5,
and is 0 for every distance of at least 0.15. -/
theorem gaze_score_properties :
    (∀ f : FaceDetection,
      gazeScoreOf f = min 1 (max 0 (1 - |avgRatio f - 1/2| / (15/100))))
    ∧ (∀ iris c : ℚ, get_gaze_ratio iris c c = 1/2)
    ∧ (∀ f : FaceDetection, leftRatio f = 1/2 → rightRatio f = 1/2 →
        gazeScoreOf f = 1)
    ∧ (∀ f g : FaceDetection, |avgRatio f - 1/2| ≤ |avgRatio g - 1/2| →
        gazeScoreOf g ≤ gazeScoreOf f)
    ∧ (∀ f : FaceDetection, 15/100 ≤ |avgRatio f - 1/2| →
        gazeScoreOf f = 0) := by
  refine ⟨fun f => ?_, fun iris c => ?_, fun f hl hr => ?_,
    fun f g h => ?_, fun f h => ?_⟩
  · have hx : 1 - |avgRatio f - 1/2| / (15/100) ≤ 1 := by
      have h0 : (0:ℚ) ≤ |avgRatio f - 1/2| / (15/100) := by positivity
      linarith
    unfold gazeScoreOf
    rw [min_eq_right (max_le (by norm_num) hx)]
  · simp [get_gaze_ratio]
  · unfold gazeScoreOf avgRatio
    rw [hl, hr]
    norm_num
  · unfold gazeScoreOf
    refine max_le_max le_rfl ?_
    have hdiv := (div_le_div_right (by norm_num : (0:ℚ) < 15/100)).mpr h
    linarith
  · unfold gazeScoreOf
    apply max_eq_left
    have h1 : (1:ℚ) ≤ |avgRatio f - 1/2| / (15/100) :=
      (le_div_iff (by norm_num)).mpr (by linarith)
    linarith

/-- Witness for `gaze_score_properties`: a centered face scores 1, a face
looking fully left (average ratio 0) scores 0 and scores no more than the
centered one. -/
theorem gaze_score_properties_witness :
    gazeScoreOf ⟨⟨1/2, 0⟩, ⟨0, 0⟩, ⟨1, 0⟩, ⟨1/2, 0⟩, ⟨0, 0⟩, ⟨1, 0⟩, ⟨0, 0⟩⟩
      = 1
    ∧ gazeScoreOf ⟨⟨0, 0⟩, ⟨0, 0⟩, ⟨1, 0⟩, ⟨0, 0⟩, ⟨0, 0⟩, ⟨1, 0⟩, ⟨0, 0⟩⟩
      = 0
    ∧ gazeScoreOf ⟨⟨0, 0⟩, ⟨0, 0⟩, ⟨1, 0⟩, ⟨0, 0⟩, ⟨0, 0⟩, ⟨1, 0⟩, ⟨0, 0⟩⟩
      ≤ gazeScoreOf
        ⟨⟨1/2, 0⟩, ⟨0, 0⟩, ⟨1, 0⟩, ⟨1/2, 0⟩, ⟨0, 0⟩, ⟨1, 0⟩, ⟨0, 0⟩⟩ :=
  ⟨gaze_score_properties.2.2.1 _
    (by norm_num [leftRatio, get_gaze_ratio])
    (by norm_num [rightRatio, get_gaze_ratio]),
   gaze_score_properties.2.2.2.2 _
    (by norm_num [avgRatio, leftRatio, rightRatio, get_gaze_ratio]
        rw [abs_of_nonneg (by norm_num : (0:ℚ) ≤ 1/2)]
        norm_num),
   gaze_score_properties.2.2.2.1 _ _
    (by norm_num [avgRatio, leftRatio, rightRatio, get_gaze_ratio])⟩

/-- Claim C5: after every frame analyze operation, the session's
stability window holds at most its fixed capacity of 15 samples (the
oldest sample is popped on overflow), and for a detected face the
reported stability score is exactly the arithmetic mean of the samples
currently stored in the window. -/
theorem stability_window_mean (sqrtQ : ℚ → ℚ) (store : Store) (sid : String)
    (input : FrameInput) (now : ℚ) (h : lenOk (store sid) = true) :
    lenOk ((analyze_frame_sync sqrtQ store sid input now).2 sid) = true
    ∧ (∀ f : FaceDetection, input.face = some f →
        (analyze_frame_sync sqrtQ store sid input now).1.map
            (fun r => r.stability_score)
          = ((analyze_frame_sync sqrtQ store sid input now).2 sid).elim []
              (fun s => [s.stability_history.sum
                / (s.stability_history.length : ℚ)])) := by
  obtain ⟨face, er⟩ := input
  cases face with
  | none =>
      refine ⟨by simpa [analyze_frame_sync] using h, fun f hf => ?_⟩
      simp at hf
  | some f =>
      have hpre : ((store sid).getD
          (frameBootstrap (f.nose.x, f.nose.y) now)).stability_history.length
            ≤ 15 := by
        cases hs : store sid with
        | none => simp [frameBootstrap]
        | some s =>
            have h2 : s.stability_history.length ≤ 15 :=
              of_decide_eq_true (by simpa [lenOk, hs] using h)
            simpa using h2
      cases er with
      | none =>
          refine ⟨?_, fun f2 hf2 => ?_⟩
          · simp only [analyze_frame_sync]
            simp [Store.set, lenOk]
            split <;>
              simp only [List.length_tail, List.length_append,
                List.length_cons, List.length_nil] <;>
              omega
          · simp [analyze_frame_sync, Store.set]
      | some raw =>
          refine ⟨?_, fun f2 hf2 => ?_⟩
          · simp only [analyze_frame_sync]
            simp [Store.set, lenOk]
            split <;>
              simp only [List.length_tail, List.length_append,
                List.length_cons, List.length_nil] <;>
              omega
          · simp [analyze_frame_sync, Store.set]

/-- Witness for `stability_window_mean`: a first frame on a fresh session
yields an 11-sample window within capacity and reports its mean. -/
theorem stability_window_mean_witness :
    lenOk ((analyze_frame_sync (fun _ => 0) (fun _ => none) "s"
        ⟨some ⟨⟨1/2, 0⟩, ⟨0, 0⟩, ⟨1, 0⟩, ⟨1/2, 0⟩, ⟨0, 0⟩, ⟨1, 0⟩,
          ⟨1/2, 1/2⟩⟩, none⟩ 0).2 "s") = true
    ∧ (analyze_frame_sync (fun _ => 0) (fun _ => none) "s"
        ⟨some ⟨⟨1/2, 0⟩, ⟨0, 0⟩, ⟨1, 0⟩, ⟨1/2, 0⟩, ⟨0, 0⟩, ⟨1, 0⟩,
          ⟨1/2, 1/2⟩⟩, none⟩ 0).1.map (fun r => r.stability_score)
      = ((analyze_frame_sync (fun _ => 0) (fun _ => none) "s"
        ⟨some ⟨⟨1/2, 0⟩, ⟨0, 0⟩, ⟨1, 0⟩, ⟨1/2, 0⟩, ⟨0, 0⟩, ⟨1, 0⟩,
          ⟨1/2, 1/2⟩⟩, none⟩ 0).2 "s").elim []
          (fun s => [s.stability_history.sum
            / (s.stability_history.length : ℚ)]) := by
  have h := stability_window_mean (fun _ => 0) (fun _ => none) "s"
    ⟨some ⟨⟨1/2, 0⟩, ⟨0, 0⟩, ⟨1, 0⟩, ⟨1/2, 0⟩, ⟨0, 0⟩, ⟨1, 0⟩,
      ⟨1/2, 1/2⟩⟩, none⟩ 0 rfl
  exact ⟨h.1, h.2 _ rfl⟩

/-- Witness for `fluency_reported` at an empty (zero-length) blob on a
fresh session: the cumulative total is 0 and the reported fluency is the
optimistic default 100. -/
theorem fluency_reported_witness :
    (analyze_audio_core (fun _ => none) "s" ⟨0, 0, 0, 0⟩ 0).1.fluency = 100 :=
  (fluency_reported (fun _ => none) "s" ⟨0, 0, 0, 0⟩ 0).2
    (by norm_num [sessionAudio, analyze_audio_core, Store.set,
      audioBootstrap, AudioStats.init, SPEECH_THRESHOLD_MS])

end FaceExpr
